import Mathlib

/-!
# Verification of the OpenClaw Railway wrapper (`src/server.js`)

A shallow embedding of the wrapper's authentication gate, reverse-proxy
routing, process supervision, onboarding orchestration and redaction logic,
together with proofs and refutations of the frozen specification claims.

Conventions:
* JavaScript strings are modelled as Lean `String`s (ASCII-faithful).
* `Map`/module-level mutable state is modelled by explicit state records.
* Outcomes of external effects (child-process exit codes, CLI output,
  readiness probes, filesystem artifact existence) are supplied as
  explicit environment parameters.
-/

namespace OpenClawWrapper

/-! ## String helpers (JS `String.prototype` operations) -/

/-- `pat.isPrefixOf`-based substring search: JS `s.includes(pat)` on char lists. -/
def includesAux (pat : List Char) : List Char → Bool
  | [] => pat.isPrefixOf ([] : List Char)
  | c :: rest => pat.isPrefixOf (c :: rest) || includesAux pat rest

/-- JS `s.includes(pat)`. -/
def strIncludes (s pat : String) : Bool :=
  includesAux pat.data s.data

/-- JS `s.toLowerCase()` (ASCII). -/
def strLower (s : String) : String :=
  ⟨s.data.map Char.toLower⟩

/-- JS `s.startsWith(pre)`. -/
def strStartsWith (s pre : String) : Bool :=
  pre.data.isPrefixOf s.data

/-- JS `s.slice(n)` (drop the first `n` characters). -/
def strDrop (s : String) (n : Nat) : String :=
  ⟨s.data.drop n⟩

/-! ## `classifyOnboardFailure` (server.js:2461-2493) -/

/-- The typed error triple produced by the onboarding failure classifier. -/
structure OnboardFailure where
  code : String
  message : String
  action : String
deriving DecidableEq

/-- `classifyOnboardFailure(output)` (server.js:2461-2493): lowercases the
combined output once and tests substring markers in priority order. -/
def classifyOnboardFailure (output : String) : OnboardFailure :=
  let text := strLower output
  if strIncludes text "invalid" && strIncludes text "api key" then
    { code := "PROVIDER_AUTH_FAILED"
      message := "Provider authentication failed during onboarding."
      action := "Verify provider selection and API key, then run Preflight again." }
  else if strIncludes text "permission denied" || strIncludes text "eacces" ||
      strIncludes text "readonly" then
    { code := "STORAGE_PERMISSION_ERROR"
      message := "OpenClaw could not write required files."
      action := "Check OPENCLAW_STATE_DIR/OPENCLAW_WORKSPACE_DIR and volume mount permissions." }
  else if strIncludes text "timeout" || strIncludes text "timed out" then
    { code := "ONBOARD_TIMEOUT"
      message := "Onboarding timed out before completion."
      action := "Retry once; if it repeats, check network/provider connectivity and logs." }
  else
    { code := "ONBOARD_FAILED"
      message := "OpenClaw onboarding did not complete successfully."
      action := "Review setup output log, fix highlighted issues, and retry deployment." }

/-- The classification table exactly as claim C7 words it (for comparison with
the code's classifier): the phrase marker "invalid api key" taken literally,
markers "permission denied"/"eacces"/"readonly", marker "timeout", default
`ONBOARD_FAILED`; all case-insensitive. -/
def claimC7Classify (output : String) : String :=
  let text := strLower output
  if strIncludes text "invalid api key" then "PROVIDER_AUTH_FAILED"
  else if strIncludes text "permission denied" || strIncludes text "eacces" ||
      strIncludes text "readonly" then "STORAGE_PERMISSION_ERROR"
  else if strIncludes text "timeout" then "ONBOARD_TIMEOUT"
  else "ONBOARD_FAILED"

/-! ## `redactSecrets` (server.js:2774-2782)

The four chained JS regex replacements are modelled by left-to-right scans.
Each pattern has a fixed literal prefix followed by greedy character-class
runs with a minimum length, so a linear scan that, at each position, either
replaces a maximal match or keeps the character, reproduces
`String.prototype.replace` with a global regex. -/

/-- Character class `[A-Za-z0-9_-]`. -/
def isKeyChar (c : Char) : Bool :=
  c.isAlpha || c.isDigit || c == '_' || c == '-'

/-- Character class `[A-Za-z0-9_]`. -/
def isGhoChar (c : Char) : Bool :=
  c.isAlpha || c.isDigit || c == '_'

/-- Character class `[A-Za-z0-9-]`. -/
def isXoxChar (c : Char) : Bool :=
  c.isAlpha || c.isDigit || c == '-'

/-- Regex class `\S` (non-whitespace), over the ASCII whitespace set. -/
def isNonSpace (c : Char) : Bool :=
  !(c == ' ' || c == '\t' || c == '\n' || c == '\r' ||
    c == '\x0c' || c == '\x0b')

/-- Length of the maximal leading run of characters satisfying `p`
(a greedy character-class quantifier). -/
def takeClassLen (p : Char → Bool) : List Char → Nat
  | [] => 0
  | c :: rest => if p c then takeClassLen p rest + 1 else 0

/-- Match `/(sk-[A-Za-z0-9_-]{10,})/` at the head; returns consumed length. -/
def matchSk (l : List Char) : Option Nat :=
  if "sk-".data.isPrefixOf l then
    let n := takeClassLen isKeyChar (l.drop 3)
    if 10 ≤ n then some (3 + n) else none
  else none

/-- Match `/(gho_[A-Za-z0-9_]{10,})/` at the head. -/
def matchGho (l : List Char) : Option Nat :=
  if "gho_".data.isPrefixOf l then
    let n := takeClassLen isGhoChar (l.drop 4)
    if 10 ≤ n then some (4 + n) else none
  else none

/-- Match `/(xox[baprs]-[A-Za-z0-9-]{10,})/` at the head. -/
def matchXox (l : List Char) : Option Nat :=
  match l with
  | 'x' :: 'o' :: 'x' :: k :: '-' :: rest =>
    if k == 'b' || k == 'a' || k == 'p' || k == 'r' || k == 's' then
      let n := takeClassLen isXoxChar rest
      if 10 ≤ n then some (5 + n) else none
    else none
  | _ => none

/-- Match `/(AA[A-Za-z0-9_-]{10,}:\S{10,})/` at the head.  The first class
excludes `:`, so the greedy run ends exactly at the literal colon and no
backtracking can produce any other match. -/
def matchAA (l : List Char) : Option Nat :=
  if "AA".data.isPrefixOf l then
    let n := takeClassLen isKeyChar (l.drop 2)
    if 10 ≤ n then
      match (l.drop (2 + n)) with
      | ':' :: rest =>
        let m := takeClassLen isNonSpace rest
        if 10 ≤ m then some (2 + n + 1 + m) else none
      | _ => none
    else none
  else none

/-- One global-replace pass: scan left to right, replacing each match of
`tryMatch` by `[REDACTED]` and resuming after it.  The fuel (initialised to
the list length) only bounds the recursion; every match consumes at least
one character, so the fuel never runs out on a real input. -/
def redactAux (tryMatch : List Char → Option Nat) : Nat → List Char → List Char
  | 0, l => l
  | _ + 1, [] => []
  | fuel + 1, c :: rest =>
    match tryMatch (c :: rest) with
    | some k => "[REDACTED]".data ++ redactAux tryMatch fuel (List.drop k (c :: rest))
    | none => c :: redactAux tryMatch fuel rest

/-- JS `text.replace(pattern, "[REDACTED]")` with a global regex. -/
def redactPass (tryMatch : List Char → Option Nat) (l : List Char) : List Char :=
  redactAux tryMatch l.length l

/-- `redactSecrets(text)` (server.js:2774-2782): empty/falsy input is returned
unchanged; otherwise the four secret patterns are replaced in order. -/
def redactSecrets (text : String) : String :=
  if text = "" then text
  else ⟨redactPass matchAA (redactPass matchXox (redactPass matchGho
        (redactPass matchSk text.data)))⟩

/-- Marker test of the first classifier branch (server.js:2464). -/
def hasInvalidKeyMarker (o : String) : Bool :=
  strIncludes (strLower o) "invalid" && strIncludes (strLower o) "api key"

/-- Marker test of the second classifier branch (server.js:2472). -/
def hasStorageMarker (o : String) : Bool :=
  strIncludes (strLower o) "permission denied" || strIncludes (strLower o) "eacces" ||
    strIncludes (strLower o) "readonly"

/-- Marker test of the third classifier branch (server.js:2480). -/
def hasTimeoutMarker (o : String) : Bool :=
  strIncludes (strLower o) "timeout" || strIncludes (strLower o) "timed out"

/-! ## `POST /setup/api/run` (server.js:2596-2747) and `sendSetupError` (2449-2459) -/

/-- JS whitespace test used by `String.prototype.trim` (ASCII subset). -/
def isJsSpace (c : Char) : Bool :=
  c == ' ' || c == '\t' || c == '\n' || c == '\r' || c == '\x0c' || c == '\x0b'

/-- JS `s.trim()`. -/
def strTrim (s : String) : String :=
  ⟨((s.data.dropWhile isJsSpace).reverse.dropWhile isJsSpace).reverse⟩

/-- The fields of the onboarding request body that the handler's control flow
reads (server.js:2606-2621); the messaging-channel tokens and model only feed
the appended log, which is part of `OnboardEnv.extra`. -/
structure RunPayload where
  authChoice : String
  authSecret : String
deriving DecidableEq

/-- Outcomes of the external effects performed by the run handler: the
onboarding CLI invocation (`runCmd`, server.js:2624), the configuration
artifact existence re-check (`isConfigured()`, server.js:2627), and the
combined log `extra` appended by the independently fallible post-success
steps (config patching, model selection, channel setup; server.js:2644-2730). -/
structure OnboardEnv where
  onboardExit : Nat
  onboardOutput : String
  configuredAfter : Bool
  extra : String
deriving DecidableEq

/-- JSON responses of the run handler: `{ok: true, output}` on HTTP 200, and
`sendSetupError` (server.js:2449-2459) producing
`{ok: false, error: {code, message, action, details}}` otherwise. -/
inductive SetupRunResponse
  | okOut (output : String)
  | err (status : Nat) (code message action : String)
      (commandExitCode : Option Nat) (outputPreview : Option String)
deriving DecidableEq

/-- The preflight blocker re-checked inside the run handler
(server.js:2609-2611). -/
def runBlocked (p : RunPayload) : Bool :=
  (p.authChoice != "claude-cli" && p.authChoice != "codex-cli") &&
    strTrim p.authSecret == ""

/-- The `POST /setup/api/run` handler (server.js:2596-2747) as a function of
the pre-state (`configuredBefore = isConfigured()` at entry), the request
payload, and the external-effect outcomes. -/
def setupApiRun (configuredBefore : Bool) (p : RunPayload) (env : OnboardEnv) :
    SetupRunResponse :=
  if configuredBefore then
    .okOut "Already configured.\nUse Reset setup if you want to rerun onboarding.\n"
  else if runBlocked p then
    .err 400 "PRECONDITION_FAILED"
      "Cannot start onboarding due to missing required setup input."
      "Run Preflight, fix blockers, and retry deployment." none none
  else if env.onboardExit == 0 && env.configuredAfter then
    .okOut (env.onboardOutput ++ env.extra)
  else
    let c := classifyOnboardFailure env.onboardOutput
    .err 500 c.code c.message c.action (some env.onboardExit)
      (some ⟨env.onboardOutput.data.take 3000⟩)

/-! ## `POST /setup/api/console/run` (server.js:2784-2857) -/

/-- `ALLOWED_CONSOLE_COMMANDS` (server.js:2784-2797). -/
def ALLOWED_CONSOLE_COMMANDS : List String :=
  ["gateway.restart", "gateway.stop", "gateway.start",
   "openclaw.version", "openclaw.status", "openclaw.health",
   "openclaw.doctor", "openclaw.logs.tail", "openclaw.config.get"]

/-- Outcomes of the external effects of a console command: the CLI invocation
for the `openclaw.*` commands and the `ensureGatewayRunning` result for
`gateway.start`. -/
structure ConsoleEnv where
  cliExit : Nat
  cliOutput : String
  gatewayStartOk : Bool
deriving DecidableEq

/-- JSON responses of the console handler: `{ok:false, error}` or
`{ok, output}` with an HTTP status. -/
inductive ConsoleResponse
  | errorResp (status : Nat) (error : String)
  | outputResp (status : Nat) (ok : Bool) (output : String)
deriving DecidableEq

/-- The `POST /setup/api/console/run` handler (server.js:2799-2857).  The five
`openclaw.*` CLI commands differ only in the argv passed to `runCmd`
(captured by `ConsoleEnv`); each returns `redactSecrets` of the combined
output with status keyed to the exit code. -/
def consoleRun (cmd arg : String) (env : ConsoleEnv) : ConsoleResponse :=
  if !(ALLOWED_CONSOLE_COMMANDS.contains cmd) then
    .errorResp 400 "Command not allowed"
  else if cmd == "gateway.restart" then
    .outputResp 200 true "Gateway restarted (wrapper-managed).\n"
  else if cmd == "gateway.stop" then
    .outputResp 200 true "Gateway stopped (wrapper-managed).\n"
  else if cmd == "gateway.start" then
    .outputResp 200 env.gatewayStartOk
      (if env.gatewayStartOk then "Gateway started.\n"
       else "Gateway not started: not configured\n")
  else if cmd == "openclaw.config.get" && arg == "" then
    .errorResp 400 "Missing config path"
  else
    .outputResp (if env.cliExit == 0 then 200 else 500) (env.cliExit == 0)
      (redactSecrets env.cliOutput)

/-! ## HTTP routing, `requireAuth` (server.js:685-713), `requireSetupPassword`
(server.js:571-607), the catch-all proxy handler (server.js:3121-3171) and the
WebSocket upgrade handler (server.js:3227-3260) -/

/-- HTTP method, as Express route matching distinguishes it.  `other` stands
for any method besides GET and POST (no route in the app matches those). -/
inductive Method
  | get
  | post
  | other
deriving DecidableEq

/-- The request attributes the wrapper's routing and gating read. -/
structure Request where
  method : Method
  /-- `req.path` (no query string). -/
  path : String
  /-- the `Accept` header includes `application/json`. -/
  acceptJson : Bool
  /-- `req.session.user` is present (a logged-in session). -/
  sessionUser : Bool
  /-- `req.session.setupPasswordVerified` is set. -/
  setupPasswordVerified : Bool
deriving DecidableEq

/-- The server-level state the routing depends on. -/
structure ServerConfig where
  /-- `AUTH_PASSWORD` (server.js:62); empty means auth not configured. -/
  authPassword : String
  /-- `isPasswordConfigured()` (server.js:137): a setup password exists. -/
  setupPasswordConfigured : Bool
  /-- `isConfigured()` (server.js:228): the configuration artifact exists. -/
  configured : Bool
  /-- whether `ensureGatewayRunning()` succeeds (its readiness check). -/
  gatewayReady : Bool
deriving DecidableEq

/-- `isAuthConfigured()` (server.js:565-567). -/
def isAuthConfigured (cfg : ServerConfig) : Bool :=
  cfg.authPassword != ""

/-- How a request is answered, at the granularity the claims need.  Routes
whose internal behavior no claim depends on are recorded as `handler name`;
all of them respond locally and never touch the proxy. -/
inductive RouteResult
  | page (name : String)
  | json (status : Nat) (body : String)
  | redirect (location : String)
  | handler (name : String)
  | unavailable
  | proxied
deriving DecidableEq

/-- Express mounts `app.use("/setup", requireSetupPassword)` so that it runs
for `/setup` itself and any `/setup/`-prefixed path. -/
def isSetupMounted (path : String) : Bool :=
  path == "/setup" || strStartsWith path "/setup/"

/-- The mount-relative path Express hands to middleware mounted at `/setup`. -/
def setupRel (path : String) : String :=
  if path == "/setup" then "/" else strDrop path 6

/-- `requireSetupPassword` (server.js:571-607), with `rel` the mount-relative
path; `none` means the middleware calls `next()`. -/
def requireSetupPassword (cfg : ServerConfig) (req : Request) (rel : String) :
    Option RouteResult :=
  if rel == "/password-prompt" || rel == "/verify-password" ||
      rel == "/create-password" || rel == "/save-password" ||
      rel == "/forgot-password" || rel == "/request-reset" ||
      rel == "/reset-password" || rel == "/confirm-reset" ||
      rel == "/healthz" then
    none
  else if !cfg.setupPasswordConfigured then
    if strStartsWith rel "/api/" || req.acceptJson then
      some (.json 401 "Setup password not yet configured. Visit /setup to create one.")
    else some (.redirect "/setup/create-password")
  else if req.setupPasswordVerified then none
  else if strStartsWith rel "/api/" || req.acceptJson then
    some (.json 401 "Setup password required")
  else some (.redirect "/setup/password-prompt")

/-- `requireAuth` (server.js:685-713); `none` means `next()`. -/
def requireAuth (cfg : ServerConfig) (req : Request) : Option RouteResult :=
  if req.path == "/auth/login" || req.path == "/auth/temp-login" ||
      req.path == "/auth/temp-login/status" || req.path == "/setup/healthz" then
    none
  else if !isAuthConfigured cfg then none
  else if req.sessionUser then none
  else if strStartsWith req.path "/setup/api/" || req.acceptJson then
    some (.json 401 "Not authenticated")
  else some (.redirect "/auth/login")

/-- The catch-all proxy handler (server.js:3121-3171): unconfigured requests
outside `/setup` are redirected to `/setup`; configured requests first run
`ensureGatewayRunning()`, answering a 503 auto-retry page if it fails; the
remaining requests are handed to `proxy.web`. -/
def catchAllProxy (cfg : ServerConfig) (req : Request) : RouteResult :=
  if !cfg.configured && !(strStartsWith req.path "/setup") then
    .redirect "/setup"
  else if cfg.configured && !cfg.gatewayReady then .unavailable
  else .proxied

/-- The routes registered after `app.use(requireAuth)` (server.js:1663-3118),
falling through to the catch-all proxy handler. -/
def sessionGatedRoutes (cfg : ServerConfig) (req : Request) : RouteResult :=
  if req.method == .get && req.path == "/setup/app.js" then .handler "setupAppJs"
  else if req.method == .get && req.path == "/setup" then .handler "setupPage"
  else if req.method == .get && req.path == "/setup/api/status" then
    .handler "status"
  else if req.method == .post && req.path == "/setup/api/preflight" then
    .handler "preflight"
  else if req.method == .post && req.path == "/setup/api/run" then
    .handler "setupApiRun"
  else if req.method == .get && req.path == "/setup/api/debug" then
    .handler "debug"
  else if req.method == .post && req.path == "/setup/api/console/run" then
    .handler "consoleRun"
  else if req.method == .get && req.path == "/setup/api/config/raw" then
    .handler "configRawGet"
  else if req.method == .post && req.path == "/setup/api/config/raw" then
    .handler "configRawPost"
  else if req.method == .post && req.path == "/setup/api/pairing/approve" then
    .handler "pairingApprove"
  else if req.method == .post && req.path == "/setup/api/reset" then
    .handler "reset"
  else if req.method == .get && req.path == "/setup/export" then
    .handler "export"
  else if req.method == .post && req.path == "/setup/import" then
    .handler "import"
  else catchAllProxy cfg req

/-- Dispatch from `app.use("/setup", requireSetupPassword)` (server.js:1658)
onwards: the setup-password gate, then `app.use(requireAuth)` (line 1661),
then the session-gated routes and the catch-all proxy. -/
def gatedDispatch (cfg : ServerConfig) (req : Request) : RouteResult :=
  match (if isSetupMounted req.path then
          requireSetupPassword cfg req (setupRel req.path)
         else none) with
  | some r => r
  | none =>
    match requireAuth cfg req with
    | some r => r
    | none => sessionGatedRoutes cfg req

/-- The Express app's dispatch, in registration order (server.js:911-3171):
the routes registered before the two gating middlewares, then
`gatedDispatch`. -/
def route (cfg : ServerConfig) (req : Request) : RouteResult :=
  -- routes registered before the gates (server.js:911-1655)
  if req.method == .get && req.path == "/auth/login" then
    (if req.sessionUser then .redirect "/" else .page "login")
  else if req.method == .post && req.path == "/auth/login" then
    .handler "postAuthLogin"
  else if req.method == .get && req.path == "/auth/logout" then
    .redirect "/auth/login"
  else if req.method == .get && req.path == "/auth/me" then
    (if req.sessionUser then .json 200 "user" else .json 401 "Not authenticated")
  else if req.method == .get && req.path == "/setup/create-password" then
    (if cfg.setupPasswordConfigured then .redirect "/setup/password-prompt"
     else .page "create-password")
  else if req.method == .post && req.path == "/setup/save-password" then
    .handler "saveSetupPassword"
  else if req.method == .get && req.path == "/setup/password-prompt" then
    .page "password-prompt"
  else if req.method == .post && req.path == "/setup/verify-password" then
    .handler "verifySetupPassword"
  else if req.method == .get && req.path == "/setup/forgot-password" then
    .page "forgot-password"
  else if req.method == .post && req.path == "/setup/request-reset" then
    .handler "requestReset"
  else if req.method == .get && req.path == "/setup/reset-password" then
    .handler "resetPasswordPage"
  else if req.method == .post && req.path == "/setup/confirm-reset" then
    .handler "confirmReset"
  else if req.method == .get && req.path == "/setup/healthz" then
    .json 200 "ok"
  else gatedDispatch cfg req

/-- A WebSocket upgrade request, reduced to what the handler reads: whether
parsing the session cookie through the session middleware yields a session
with a logged-in user (server.js:3237-3242). -/
structure UpgradeRequest where
  cookieSessionUser : Bool
deriving DecidableEq

/-- Outcome of an upgrade attempt: the raw socket is destroyed before any
handshake bytes are written, or the upgrade is forwarded with `proxy.ws`. -/
inductive UpgradeResult
  | destroyed
  | proxiedWs
deriving DecidableEq

/-- The `server.on("upgrade")` handler (server.js:3227-3260). -/
def upgradeHandler (cfg : ServerConfig) (req : UpgradeRequest) : UpgradeResult :=
  if !cfg.configured then .destroyed
  else if isAuthConfigured cfg && !req.cookieSessionUser then .destroyed
  else if !cfg.gatewayReady then .destroyed
  else .proxiedWs

/-- Claim C1's public allow-list: the login page and submission, the
temp-login routes, and `/setup/healthz`. -/
def claimC1AllowList (path : String) : Bool :=
  path == "/auth/login" || path == "/auth/temp-login" ||
    path == "/auth/temp-login/status" || path == "/setup/healthz"

/-- Claim C1's notion of an API-style request: path prefixed `/setup/api/`
or an `Accept` header including `application/json`. -/
def apiStyle (req : Request) : Bool :=
  strStartsWith req.path "/setup/api/" || req.acceptJson

/-- The method/path pairs of the routes registered before `app.use(requireAuth)`
(server.js:911-1655), which therefore answer without any session check. -/
def preAuthRoute (m : Method) (path : String) : Bool :=
  (m == .get && (path == "/auth/login" || path == "/auth/logout" ||
    path == "/auth/me" || path == "/setup/create-password" ||
    path == "/setup/password-prompt" || path == "/setup/forgot-password" ||
    path == "/setup/reset-password" || path == "/setup/healthz")) ||
  (m == .post && (path == "/auth/login" || path == "/setup/save-password" ||
    path == "/setup/verify-password" || path == "/setup/request-reset" ||
    path == "/setup/confirm-reset"))

end OpenClawWrapper

namespace OpenClawWrapper

/-! ## Restart scheduling (server.js:236-240, 356-405, 441-453) -/

/-- The module-level supervisor state relevant to restart scheduling
(server.js:236-240): the process handle, the restart-attempt counter and the
single pending restart timer (holding its delay in ms). -/
structure SupervisorState where
  proc : Bool
  gatewayRestartAttempts : Nat
  gatewayRestartTimer : Option Nat
deriving DecidableEq

/-- `MAX_RESTART_ATTEMPTS` (server.js:240). -/
def MAX_RESTART_ATTEMPTS : Nat := 3

/-- `scheduleGatewayRestart()` (server.js:367-405): clears any pending timer;
past the maximum it returns without scheduling; otherwise it schedules a
timer with delay `2^attempts * 1000` ms and increments the counter. -/
def scheduleGatewayRestart (s : SupervisorState) : SupervisorState :=
  if MAX_RESTART_ATTEMPTS ≤ s.gatewayRestartAttempts then
    { s with gatewayRestartTimer := none }
  else
    { s with gatewayRestartAttempts := s.gatewayRestartAttempts + 1,
             gatewayRestartTimer := some (2 ^ s.gatewayRestartAttempts * 1000) }

/-- The spawned process's `exit` handler when not shutting down
(server.js:356-364): the handle is cleared and a restart is scheduled. -/
def gatewayExitEvent (s : SupervisorState) : SupervisorState :=
  scheduleGatewayRestart { s with proc := false }

/-- The restart timer's callback (server.js:386-404): the timer is consumed,
`startGateway()` spawns a fresh process, and a bounded readiness wait
follows; on success (`ready = true`) the attempt counter is reset to 0,
otherwise `scheduleGatewayRestart()` is invoked again. -/
def restartTimerFire (s : SupervisorState) (ready : Bool) : SupervisorState :=
  let s1 : SupervisorState := { s with proc := true, gatewayRestartTimer := none }
  if ready then { s1 with gatewayRestartAttempts := 0 }
  else scheduleGatewayRestart s1

/-- `restartGateway()` (server.js:441-453): kills the current process and
re-runs `ensureGatewayRunning` (spawn plus readiness wait, leaving a live
process exactly when the wait succeeds).  Neither function references
`gatewayRestartAttempts` or `gatewayRestartTimer`, so both carry over
unchanged. -/
def restartGateway (s : SupervisorState) (ready : Bool) : SupervisorState :=
  { s with proc := ready }

/-! ## Single-flight start (server.js:273-343, 407-439) -/
/-- Program counter of one concurrent `ensureGatewayRunning()` caller on a
configured system, with one location per `await` boundary of the event loop
(server.js:407-439).  The JS blocks between `await`s run atomically. -/
inductive CallerPc
  | entry
  | probing
  | sleeping
  | awaitingFlight
  | done
deriving DecidableEq

/-- The shared module state the single-flight logic reads and writes
(`gatewayProc`, `gatewayStarting`; server.js:236-237), plus a counter of
`childProcess.spawn` calls (server.js:336) for the specification. -/
structure FlightState where
  proc : Bool
  starting : Bool
  spawns : Nat
deriving DecidableEq

/-- One atomic event-loop step of some caller `i` during the window in which
the gateway is not yet ready (the in-flight start has not completed, so
nothing resets `gatewayStarting`):

* `entryJoin`/`entrySpawn` — the first synchronous block with `gatewayProc`
  null: the caller reaches `if (!gatewayStarting)` (server.js:420); if a
  flight exists it awaits it, otherwise it installs the flight whose body
  synchronously runs `startGateway()` up to and including the `spawn`
  (server.js:273-343 contain no `await` before the spawn);
* `entryProbe` — the first block with a live handle starts the 2-second
  readiness probe (server.js:410-412);
* `probeAlive`/`probeDead` — the probe resolves: return `ok`, or SIGTERM
  the handle and start `sleep(500)` (server.js:413-417);
* `wakeJoin`/`wakeSpawn` — after the sleep: clear `gatewayProc`, then the
  same `if (!gatewayStarting)` join-or-spawn block (server.js:418-437). -/
inductive FlightStep {ι : Type} [DecidableEq ι] :
    FlightState × (ι → CallerPc) → FlightState × (ι → CallerPc) → Prop
  | entryJoin (s : FlightState) (cs : ι → CallerPc) (i : ι)
      (hp : cs i = .entry) (h1 : s.proc = false) (h2 : s.starting = true) :
      FlightStep (s, cs) (s, Function.update cs i .awaitingFlight)
  | entrySpawn (s : FlightState) (cs : ι → CallerPc) (i : ι)
      (hp : cs i = .entry) (h1 : s.proc = false) (h2 : s.starting = false) :
      FlightStep (s, cs)
        ({ proc := true, starting := true, spawns := s.spawns + 1 },
          Function.update cs i .awaitingFlight)
  | entryProbe (s : FlightState) (cs : ι → CallerPc) (i : ι)
      (hp : cs i = .entry) (h1 : s.proc = true) :
      FlightStep (s, cs) (s, Function.update cs i .probing)
  | probeAlive (s : FlightState) (cs : ι → CallerPc) (i : ι)
      (hp : cs i = .probing) :
      FlightStep (s, cs) (s, Function.update cs i .done)
  | probeDead (s : FlightState) (cs : ι → CallerPc) (i : ι)
      (hp : cs i = .probing) :
      FlightStep (s, cs) (s, Function.update cs i .sleeping)
  | wakeJoin (s : FlightState) (cs : ι → CallerPc) (i : ι)
      (hp : cs i = .sleeping) (h2 : s.starting = true) :
      FlightStep (s, cs) ({ s with proc := false }, Function.update cs i .awaitingFlight)
  | wakeSpawn (s : FlightState) (cs : ι → CallerPc) (i : ι)
      (hp : cs i = .sleeping) (h2 : s.starting = false) :
      FlightStep (s, cs)
        ({ proc := true, starting := true, spawns := s.spawns + 1 },
          Function.update cs i .awaitingFlight)

/-- The initial state of the window: no process, no in-flight start, no
spawns yet, every caller about to enter `ensureGatewayRunning()`. -/
def flightInit (ι : Type) : FlightState × (ι → CallerPc) :=
  (⟨false, false, 0⟩, fun _ => .entry)

/-- Inductive invariant of the single-flight window. -/
def FlightInv {ι : Type} (st : FlightState × (ι → CallerPc)) : Prop :=
  st.1.spawns ≤ 1 ∧ (st.1.starting = true ↔ st.1.spawns = 1) ∧
    (st.1.proc = true → st.1.starting = true) ∧
    ((∃ i, st.2 i ≠ .entry) → st.1.spawns = 1)

/-! ## Login and rate limiting (server.js:727-760, 920-979) -/

/-- `AUTH_USERNAME` / `AUTH_PASSWORD` (server.js:61-62); an empty password
means authentication is not configured. -/
structure AuthConfig where
  username : String
  password : String
deriving DecidableEq

/-- One entry of the in-memory `loginAttempts` map (server.js:727): the
attempt count and the window expiry timestamp (ms). -/
structure RateRecord where
  count : Nat
  resetAt : Nat
deriving DecidableEq

/-- The login rate-limit window (server.js:732). -/
def LOGIN_WINDOW_MS : Nat := 15 * 60 * 1000

/-- The login rate-limit cap (server.js:733). -/
def LOGIN_MAX_ATTEMPTS : Nat := 10

/-- Outcome of the `rateLimitLogin` middleware for one request. -/
inductive RateOutcome
  | allowed
  | limited (retryAfter : Nat)
deriving DecidableEq

/-- `rateLimitLogin` (server.js:729-752) for one client key at time `now`:
within a live window at the cap it answers 429 with a `Retry-After` of
`Math.ceil((resetAt - now) / 1000)` seconds; a missing or expired record is
(re)initialised to `{count: 0, resetAt: now + window}`; otherwise the record
is left as is and the request proceeds. -/
def rateLimitLogin (st : Option RateRecord) (now : Nat) :
    RateOutcome × Option RateRecord :=
  match st with
  | some r =>
    if now < r.resetAt then
      if LOGIN_MAX_ATTEMPTS ≤ r.count then
        (.limited ((r.resetAt - now + 999) / 1000), some r)
      else (.allowed, some r)
    else (.allowed, some { count := 0, resetAt := now + LOGIN_WINDOW_MS })
  | none => (.allowed, some { count := 0, resetAt := now + LOGIN_WINDOW_MS })

/-- `incrementLoginAttempts` (server.js:754-760): bumps the count when a
record exists. -/
def incrementLoginAttempts : Option RateRecord → Option RateRecord
  | some r => some { r with count := r.count + 1 }
  | none => none

/-- `Buffer.alloc(n)` then `buf.write(s)` (server.js:944-952): the string's
bytes followed by zero padding. -/
def padTo (l : List Char) (n : Nat) : List Char :=
  l ++ List.replicate (n - l.length) (Char.ofNat 0)

/-- `crypto.timingSafeEqual` on the two padded buffers (server.js:956-957). -/
def bufferEqualPadded (a b : List Char) (n : Nat) : Bool :=
  padTo a n == padTo b n

/-- The observable outcome of `POST /auth/login` (server.js:920-979); error
redirects carry the message without URI-encoding. `openAccess` stands for the
session `{id: "open-access", login, name: "Open Access User"}` plus the
redirect, `authed` for `{id: <random>, login, name: login}` plus the
redirect. -/
inductive LoginResponse
  | errorRedirect (location : String)
  | openAccess (login : String) (redirectTo : String)
  | authed (login : String) (redirectTo : String)
  | rateLimited (retryAfter : Nat)
deriving DecidableEq

/-- The `POST /auth/login` pipeline (server.js:920-979): the `rateLimitLogin`
middleware, then the handler — missing-field check, open-access mode, and
the padded constant-time credential comparison; failed attempts are recorded
via `incrementLoginAttempts`. -/
def postAuthLogin (auth : AuthConfig) (st : Option RateRecord) (now : Nat)
    (username password : String) : LoginResponse × Option RateRecord :=
  match rateLimitLogin st now with
  | (.limited ra, st') => (.rateLimited ra, st')
  | (.allowed, st') =>
    if username == "" || password == "" then
      (.errorRedirect "/auth/login?error=Username and password are required",
        incrementLoginAttempts st')
    else if auth.password == "" then
      (.openAccess username "/setup", st')
    else
      let maxLen := max (max username.length auth.username.length)
        (max password.length auth.password.length)
      let usernameMatch := bufferEqualPadded username.data auth.username.data maxLen
        && (username.length == auth.username.length)
      let passwordMatch := bufferEqualPadded password.data auth.password.data maxLen
        && (password.length == auth.password.length)
      if usernameMatch && passwordMatch then
        (.authed username "/setup", st')
      else
        (.errorRedirect "/auth/login?error=Invalid username or password",
          incrementLoginAttempts st')

/-- State threading of a sequence of login attempts with fixed credentials,
one per timestamp. -/
def runFailedLogins (auth : AuthConfig) (u p : String) :
    Option RateRecord → List Nat → Option RateRecord
  | st, [] => st
  | st, t :: ts => runFailedLogins auth u p (postAuthLogin auth st t u p).2 ts

/-! ## Routing lemmas and theorems for claims C1, C2, C3 -/

lemma rel_api_iff (p : String) (h : isSetupMounted p = true) :
    strStartsWith (setupRel p) "/api/" = strStartsWith p "/setup/api/" := by
  simp only [isSetupMounted, Bool.or_eq_true] at h
  rcases h with h | h
  · have hp : p = "/setup" := by simpa using h
    subst hp
    decide
  · have hp : "/setup/".data <+: p.data :=
      List.isPrefixOf_iff_prefix.mp h
    obtain ⟨t, ht⟩ := hp
    have hne : (p == "/setup") = false := by
      apply beq_eq_false_iff_ne.mpr
      intro e
      have : p.data = "/setup".data := by rw [e]
      rw [← ht] at this
      have := congrArg List.length this
      simp at this
    have hdata : p.data = '/' :: 's' :: 'e' :: 't' :: 'u' :: 'p' :: '/' :: t := by
      rw [← ht]; rfl
    simp only [setupRel, hne, Bool.false_eq_true, if_false, strDrop, strStartsWith, hdata]
    rfl



lemma route_eq_gated (cfg : ServerConfig) (req : Request)
    (hpre : preAuthRoute req.method req.path = false) :
    route cfg req = gatedDispatch cfg req := by
  simp only [preAuthRoute, Bool.or_eq_false_iff, Bool.and_eq_false_iff] at hpre
  obtain ⟨hg, hq⟩ := hpre
  rcases hg with hg | hg <;> rcases hq with hq | hq <;>
    simp_all [route]



lemma gated_unauthenticated (cfg : ServerConfig) (req : Request)
    (hauth : isAuthConfigured cfg = true)
    (hnouser : req.sessionUser = false)
    (hallow : claimC1AllowList req.path = false) :
    (apiStyle req = true →
      (gatedDispatch cfg req = .json 401 "Not authenticated" ∨
       gatedDispatch cfg req =
         .json 401 "Setup password not yet configured. Visit /setup to create one." ∨
       gatedDispatch cfg req = .json 401 "Setup password required"))
    ∧ (apiStyle req = false →
      (gatedDispatch cfg req = .redirect "/auth/login" ∨
       gatedDispatch cfg req = .redirect "/setup/create-password" ∨
       gatedDispatch cfg req = .redirect "/setup/password-prompt")) := by
  have hex : (req.path == "/auth/login" || req.path == "/auth/temp-login" ||
      req.path == "/auth/temp-login/status" || req.path == "/setup/healthz") = false := by
    simpa [claimC1AllowList] using hallow
  have hra : requireAuth cfg req =
      (if strStartsWith req.path "/setup/api/" || req.acceptJson then
        some (RouteResult.json 401 "Not authenticated")
       else some (.redirect "/auth/login")) := by
    simp only [requireAuth, hex, hauth, hnouser, Bool.not_true, Bool.false_eq_true,
      if_false]
  by_cases hm : isSetupMounted req.path = true
  · have hrel := rel_api_iff req.path hm
    by_cases hexcl : (setupRel req.path == "/password-prompt" ||
        setupRel req.path == "/verify-password" ||
        setupRel req.path == "/create-password" ||
        setupRel req.path == "/save-password" ||
        setupRel req.path == "/forgot-password" ||
        setupRel req.path == "/request-reset" ||
        setupRel req.path == "/reset-password" ||
        setupRel req.path == "/confirm-reset" ||
        setupRel req.path == "/healthz") = true
    · simp only [gatedDispatch, hm, if_true, requireSetupPassword, hexcl, hra]
      constructor
      · intro hapi
        simp only [apiStyle] at hapi
        exact Or.inl (by simp [hapi])
      · intro hapi
        simp only [apiStyle, Bool.or_eq_false_iff] at hapi
        exact Or.inl (by simp [hapi.1, hapi.2])
    · have hexcl' : (setupRel req.path == "/password-prompt" ||
          setupRel req.path == "/verify-password" ||
          setupRel req.path == "/create-password" ||
          setupRel req.path == "/save-password" ||
          setupRel req.path == "/forgot-password" ||
          setupRel req.path == "/request-reset" ||
          setupRel req.path == "/reset-password" ||
          setupRel req.path == "/confirm-reset" ||
          setupRel req.path == "/healthz") = false := by
        simpa using hexcl
      by_cases hspc : cfg.setupPasswordConfigured = true
      · by_cases hver : req.setupPasswordVerified = true
        · simp only [gatedDispatch, hm, if_true, requireSetupPassword, hexcl',
            hspc, hver, Bool.not_true, Bool.false_eq_true, if_false, if_true, hra]
          constructor
          · intro hapi
            simp only [apiStyle] at hapi
            exact Or.inl (by simp [hapi])
          · intro hapi
            simp only [apiStyle, Bool.or_eq_false_iff] at hapi
            exact Or.inl (by simp [hapi.1, hapi.2])
        · have hver' : req.setupPasswordVerified = false := by simpa using hver
          simp only [gatedDispatch, hm, if_true, requireSetupPassword, hexcl',
            hspc, hver', Bool.not_true, Bool.false_eq_true, if_false, if_true]
          constructor
          · intro hapi
            simp only [apiStyle] at hapi
            refine Or.inr (Or.inr ?_)
            simp [hrel, hapi]
          · intro hapi
            simp only [apiStyle, Bool.or_eq_false_iff] at hapi
            refine Or.inr (Or.inr ?_)
            simp [hrel, hapi.1, hapi.2]
      · have hspc' : cfg.setupPasswordConfigured = false := by simpa using hspc
        simp only [gatedDispatch, hm, if_true, requireSetupPassword, hexcl',
          hspc', Bool.not_false, if_true]
        constructor
        · intro hapi
          simp only [apiStyle] at hapi
          refine Or.inr (Or.inl ?_)
          simp [hrel, hapi]
        · intro hapi
          simp only [apiStyle, Bool.or_eq_false_iff] at hapi
          refine Or.inr (Or.inl ?_)
          simp [hrel, hapi.1, hapi.2]
  · have hm' : isSetupMounted req.path = false := by simpa using hm
    simp only [gatedDispatch, hm', Bool.false_eq_true, if_false, hra]
    constructor
    · intro hapi
      simp only [apiStyle] at hapi
      exact Or.inl (by simp [hapi])
    · intro hapi
      simp only [apiStyle, Bool.or_eq_false_iff] at hapi
      exact Or.inl (by simp [hapi.1, hapi.2])



lemma ite_ne_proxied {c : Prop} [Decidable c] {a b : RouteResult}
    (ha : a ≠ .proxied) (hb : b ≠ .proxied) : (if c then a else b) ≠ .proxied := by
  split
  · exact ha
  · exact hb

lemma requireSetupPassword_not_proxied (cfg : ServerConfig) (req : Request)
    (rel : String) (r : RouteResult)
    (h : requireSetupPassword cfg req rel = some r) : r ≠ .proxied := by
  unfold requireSetupPassword at h
  repeat' split at h
  all_goals try simp_all
  all_goals (subst h; simp)

lemma requireAuth_not_proxied (cfg : ServerConfig) (req : Request) (r : RouteResult)
    (h : requireAuth cfg req = some r) : r ≠ .proxied := by
  unfold requireAuth at h
  repeat' split at h
  all_goals try simp_all
  all_goals (subst h; simp)

lemma gatedDispatch_ne (cfg : ServerConfig) (req : Request)
    (hg : sessionGatedRoutes cfg req ≠ .proxied) : gatedDispatch cfg req ≠ .proxied := by
  unfold gatedDispatch
  by_cases hm : isSetupMounted req.path = true
  · simp only [hm, if_true]
    rcases hgate : requireSetupPassword cfg req (setupRel req.path) with _ | r
    · rcases hra : requireAuth cfg req with _ | r2
      · exact hg
      · exact requireAuth_not_proxied cfg req r2 hra
    · exact requireSetupPassword_not_proxied cfg req _ r hgate
  · have hm' : isSetupMounted req.path = false := by simpa using hm
    simp only [hm', Bool.false_eq_true, if_false]
    rcases hra : requireAuth cfg req with _ | r2
    · exact hg
    · exact requireAuth_not_proxied cfg req r2 hra

lemma sessionGated_ne (cfg : ServerConfig) (req : Request)
    (hg : catchAllProxy cfg req ≠ .proxied) : sessionGatedRoutes cfg req ≠ .proxied := by
  unfold sessionGatedRoutes
  refine ite_ne_proxied (by simp) ?_
  refine ite_ne_proxied (by simp) ?_
  refine ite_ne_proxied (by simp) ?_
  refine ite_ne_proxied (by simp) ?_
  refine ite_ne_proxied (by simp) ?_
  refine ite_ne_proxied (by simp) ?_
  refine ite_ne_proxied (by simp) ?_
  refine ite_ne_proxied (by simp) ?_
  refine ite_ne_proxied (by simp) ?_
  refine ite_ne_proxied (by simp) ?_
  refine ite_ne_proxied (by simp) ?_
  refine ite_ne_proxied (by simp) ?_
  refine ite_ne_proxied (by simp) ?_
  exact hg

lemma route_ne (cfg : ServerConfig) (req : Request)
    (hg : gatedDispatch cfg req ≠ .proxied) : route cfg req ≠ .proxied := by
  unfold route
  refine ite_ne_proxied (by split <;> simp) ?_
  refine ite_ne_proxied (by simp) ?_
  refine ite_ne_proxied (by simp) ?_
  refine ite_ne_proxied (by split <;> simp) ?_
  refine ite_ne_proxied (by split <;> simp) ?_
  refine ite_ne_proxied (by simp) ?_
  refine ite_ne_proxied (by simp) ?_
  refine ite_ne_proxied (by simp) ?_
  refine ite_ne_proxied (by simp) ?_
  refine ite_ne_proxied (by simp) ?_
  refine ite_ne_proxied (by simp) ?_
  refine ite_ne_proxied (by simp) ?_
  refine ite_ne_proxied (by simp) ?_
  exact hg

lemma catchAll_proxied (cfg : ServerConfig) (req : Request)
    (h : catchAllProxy cfg req = .proxied) :
    (cfg.configured = true → cfg.gatewayReady = true) ∧
    (cfg.configured = false → strStartsWith req.path "/setup" = true) := by
  unfold catchAllProxy at h
  constructor
  · intro hc
    by_contra hr
    have hr' : cfg.gatewayReady = false := by simpa using hr
    simp [hc, hr'] at h
  · intro hc
    by_contra hs
    have hs' : strStartsWith req.path "/setup" = false := by simpa using hs
    simp [hc, hs'] at h

lemma route_proxied_catchAll (cfg : ServerConfig) (req : Request)
    (h : route cfg req = .proxied) : catchAllProxy cfg req = .proxied := by
  by_contra hc
  exact route_ne cfg req (gatedDispatch_ne cfg req (sessionGated_ne cfg req hc)) h



/-- Claim C1 (amended): for every HTTP request whose path is outside the public
allow-list AND whose method/path pair is not one of the routes registered
before `app.use(requireAuth)` (the logout, `/auth/me` and setup-password
management routes, server.js:911-1655), when `AUTH_PASSWORD` is non-empty and
the request carries no logged-in session: the request is never forwarded to
the child gateway; API-style requests (path prefixed `/setup/api/` or a JSON
`Accept` header) receive 401 with a JSON body; all other requests receive a
redirect — to `/auth/login`, or to `/setup/create-password` /
`/setup/password-prompt` when the separately mounted setup-password gate
intercepts a `/setup` path first. -/
theorem C1_protected_paths_gate (cfg : ServerConfig) (req : Request)
    (hauth : cfg.authPassword ≠ "")
    (hnouser : req.sessionUser = false)
    (hallow : claimC1AllowList req.path = false)
    (hpre : preAuthRoute req.method req.path = false) :
    route cfg req ≠ .proxied
    ∧ (apiStyle req = true → ∃ body, route cfg req = .json 401 body)
    ∧ (apiStyle req = false →
        (route cfg req = .redirect "/auth/login" ∨
         route cfg req = .redirect "/setup/create-password" ∨
         route cfg req = .redirect "/setup/password-prompt")) := by
  have hac : isAuthConfigured cfg = true := by
    simp [isAuthConfigured, hauth]
  have heq := route_eq_gated cfg req hpre
  have hg := gated_unauthenticated cfg req hac hnouser hallow
  rw [heq]
  refine ⟨?_, ?_, ?_⟩
  · cases hapi : apiStyle req
    · rcases hg.2 hapi with h | h | h <;> simp [h]
    · rcases hg.1 hapi with h | h | h <;> simp [h]
  · intro hapi
    rcases hg.1 hapi with h | h | h
    · exact ⟨_, h⟩
    · exact ⟨_, h⟩
    · exact ⟨_, h⟩
  · exact hg.2

/-- Witness for `C1_protected_paths_gate` at a concrete request. -/
theorem C1_protected_paths_gate_witness :
    route ⟨"pw", true, true, true⟩ ⟨.get, "/foo", false, false, false⟩ ≠ .proxied ∧
    route ⟨"pw", true, true, true⟩ ⟨.get, "/foo", false, false, false⟩ =
      .redirect "/auth/login" := by
  have h := C1_protected_paths_gate ⟨"pw", true, true, true⟩
    ⟨.get, "/foo", false, false, false⟩ (by decide) rfl (by decide) (by decide)
  refine ⟨h.1, ?_⟩
  rcases h.2.2 (by decide) with h' | h' | h'
  · exact h'
  · exact absurd h' (by decide)
  · exact absurd h' (by decide)

/-- Counterexample to C1 as stated: `GET /auth/me` is outside the claim's
public allow-list and is not API-style (no JSON `Accept`, not under
`/setup/api/`), yet with auth configured and no session the response is
401 JSON (the route is registered before `requireAuth`, server.js:987-992),
not the redirect to `/auth/login` the claim prescribes for non-API requests. -/
theorem C1_counterexample :
    (("pw" : String) ≠ "")
    ∧ claimC1AllowList "/auth/me" = false
    ∧ apiStyle ⟨.get, "/auth/me", false, false, false⟩ = false
    ∧ route ⟨"pw", true, true, true⟩ ⟨.get, "/auth/me", false, false, false⟩ =
        .json 401 "Not authenticated"
    ∧ route ⟨"pw", true, true, true⟩ ⟨.get, "/auth/me", false, false, false⟩ ≠
        .redirect "/auth/login" := by
  refine ⟨by decide, by decide, by decide, by decide, by decide⟩

/-- Claim C2: whenever an authentication password is configured and parsing the
upgrade request's session cookie does not yield a logged-in user, the
`server.on("upgrade")` handler destroys the socket without any handshake
bytes and never forwards the upgrade to the child gateway. -/
theorem C2_ws_upgrade_unauthenticated (cfg : ServerConfig) (req : UpgradeRequest)
    (hauth : cfg.authPassword ≠ "")
    (hnouser : req.cookieSessionUser = false) :
    upgradeHandler cfg req = .destroyed ∧ upgradeHandler cfg req ≠ .proxiedWs := by
  have hac : isAuthConfigured cfg = true := by
    simp [isAuthConfigured, hauth]
  have hd : upgradeHandler cfg req = .destroyed := by
    unfold upgradeHandler
    cases hc : cfg.configured
    · simp
    · simp [hac, hnouser]
  exact ⟨hd, by simp [hd]⟩

/-- Witness for `C2_ws_upgrade_unauthenticated` at a concrete configuration. -/
theorem C2_ws_upgrade_unauthenticated_witness :
    upgradeHandler ⟨"pw", true, true, true⟩ ⟨false⟩ = .destroyed :=
  (C2_ws_upgrade_unauthenticated ⟨"pw", true, true, true⟩ ⟨false⟩ (by decide) rfl).1

/-- Claim C3 (amended): forwarding to the child gateway is gated as follows —
an HTTP request reaches `proxy.web` only if, when the configuration artifact
exists, `ensureGatewayRunning`'s readiness check succeeded; when the artifact
does NOT exist, a request can still reach the proxy, but only for
`/setup`-prefixed paths that match no explicit route (the catch-all skips its
redirect for them); a WebSocket upgrade reaches `proxy.ws` only if the
artifact exists and the readiness check succeeded.  (The converse of the
claim's "if and only if" does not hold: authentication and explicit routes
also determine whether any given request is forwarded.) -/
theorem C3_forwarding_gate :
    (∀ (cfg : ServerConfig) (req : Request), route cfg req = .proxied →
      (cfg.configured = true → cfg.gatewayReady = true) ∧
      (cfg.configured = false → strStartsWith req.path "/setup" = true))
    ∧ (∀ (cfg : ServerConfig) (ureq : UpgradeRequest),
        upgradeHandler cfg ureq = .proxiedWs →
        cfg.configured = true ∧ cfg.gatewayReady = true) := by
  constructor
  · intro cfg req h
    exact catchAll_proxied cfg req (route_proxied_catchAll cfg req h)
  · intro cfg ureq h
    unfold upgradeHandler at h
    by_cases hc : cfg.configured = true
    · by_cases hr : cfg.gatewayReady = true
      · exact ⟨hc, hr⟩
      · have hr' : cfg.gatewayReady = false := by simpa using hr
        cases hb : (isAuthConfigured cfg && !ureq.cookieSessionUser) <;>
          simp [hc, hr', hb] at h
    · have hc' : cfg.configured = false := by simpa using hc
      simp [hc'] at h

/-- Witness for `C3_forwarding_gate` at a concrete proxied request. -/
theorem C3_forwarding_gate_witness :
    ((⟨"", false, true, true⟩ : ServerConfig).configured = true →
      (⟨"", false, true, true⟩ : ServerConfig).gatewayReady = true) :=
  (C3_forwarding_gate.1 ⟨"", false, true, true⟩
    ⟨.get, "/whatever", false, true, false⟩ (by decide)).1

/-- Counterexample to C3 as stated: on an unconfigured system (artifact
absent, gateway not ready), a request to an unmatched `/setup`-prefixed path
(here `GET /setupfoo`, open-access auth, setup password verified) falls
through to `proxy.web` — traffic is handed to the proxy although
`configured = false` and the gateway is not ready. -/
theorem C3_counterexample :
    route ⟨"", true, false, false⟩ ⟨.get, "/setupfoo", false, false, true⟩ = .proxied
    ∧ (⟨"", true, false, false⟩ : ServerConfig).configured = false
    ∧ (⟨"", true, false, false⟩ : ServerConfig).gatewayReady = false := by
  refine ⟨by decide, rfl, rfl⟩

/-! ## Theorems for claims C8 and C9 -/

lemma bufferMatch_eq (a b : String) (n : Nat) :
    (bufferEqualPadded a.data b.data n && (a.length == b.length)) = (a == b) := by
  by_cases hl : a.length = b.length
  · have hdl : a.data.length = b.data.length := hl
    rw [Bool.eq_iff_iff]
    constructor
    · intro h
      have h1 : bufferEqualPadded a.data b.data n = true :=
        ((Bool.and_eq_true _ _).mp h).1
      have h2 : padTo a.data n = padTo b.data n := by
        simpa [bufferEqualPadded] using h1
      have h3 : a.data = b.data := by
        simp only [padTo, hdl] at h2
        exact List.append_cancel_right h2
      have : a = b := by
        cases a
        cases b
        exact congrArg String.mk h3
      simp [this]
    · intro h
      have : a = b := by simpa using h
      subst this
      simp [bufferEqualPadded]
  · have h1 : (a.length == b.length) = false := by
      simpa using hl
    have h2 : (a == b) = false := by
      apply beq_eq_false_iff_ne.mpr
      intro e
      exact hl (by rw [e])
    simp [h1, h2]



lemma failedLogin_step (auth : AuthConfig) (ub pb : String) (c R t : Nat)
    (hub : ub ≠ "") (hpb : pb ≠ "") (hwrong : pb ≠ auth.password)
    (hopen : auth.password ≠ "")
    (ht : t < R) (hc : c < LOGIN_MAX_ATTEMPTS) :
    postAuthLogin auth (some ⟨c, R⟩) t ub pb =
      (.errorRedirect "/auth/login?error=Invalid username or password",
        some ⟨c + 1, R⟩) := by
  have hu' : (ub == "") = false := beq_eq_false_iff_ne.mpr hub
  have hp' : (pb == "") = false := beq_eq_false_iff_ne.mpr hpb
  have ho' : (auth.password == "") = false := beq_eq_false_iff_ne.mpr hopen
  have hw' : (pb == auth.password) = false := beq_eq_false_iff_ne.mpr hwrong
  simp [postAuthLogin, rateLimitLogin, ht, Nat.not_le.mpr hc, hu', hp', ho',
    bufferMatch_eq, hw', incrementLoginAttempts]

lemma runFailedLogins_record (auth : AuthConfig) (ub pb : String)
    (hub : ub ≠ "") (hpb : pb ≠ "") (hwrong : pb ≠ auth.password)
    (hopen : auth.password ≠ "") :
    ∀ (ts : List Nat) (c R : Nat), (∀ t ∈ ts, t < R) →
      c + ts.length ≤ LOGIN_MAX_ATTEMPTS →
      runFailedLogins auth ub pb (some ⟨c, R⟩) ts = some ⟨c + ts.length, R⟩ := by
  intro ts
  induction ts with
  | nil =>
    intro c R _ _
    simp [runFailedLogins]
  | cons t ts ih =>
    intro c R hts hle
    have ht : t < R := hts t (by simp)
    have hlen : (t :: ts).length = ts.length + 1 := rfl
    have hc : c < LOGIN_MAX_ATTEMPTS := by
      rw [hlen] at hle
      omega
    rw [runFailedLogins, failedLogin_step auth ub pb c R t hub hpb hwrong hopen ht hc]
    rw [ih (c + 1) R (fun t' h' => hts t' (by simp [h'])) (by
      rw [hlen] at hle
      omega)]
    rw [hlen]
    have harith : c + 1 + ts.length = c + (ts.length + 1) := by omega
    rw [harith]



lemma firstFailedLogin (auth : AuthConfig) (ub pb : String) (t1 : Nat)
    (hub : ub ≠ "") (hpb : pb ≠ "") (hwrong : pb ≠ auth.password)
    (hopen : auth.password ≠ "") :
    postAuthLogin auth none t1 ub pb =
      (.errorRedirect "/auth/login?error=Invalid username or password",
        some ⟨1, t1 + LOGIN_WINDOW_MS⟩) := by
  have hu' : (ub == "") = false := beq_eq_false_iff_ne.mpr hub
  have hp' : (pb == "") = false := beq_eq_false_iff_ne.mpr hpb
  have ho' : (auth.password == "") = false := beq_eq_false_iff_ne.mpr hopen
  have hw' : (pb == auth.password) = false := beq_eq_false_iff_ne.mpr hwrong
  simp [postAuthLogin, rateLimitLogin, hu', hp', ho', bufferMatch_eq, hw',
    incrementLoginAttempts]

lemma cappedLogin (auth : AuthConfig) (u p : String) (R t : Nat) (ht : t < R) :
    postAuthLogin auth (some ⟨10, R⟩) t u p =
      (.rateLimited ((R - t + 999) / 1000), some ⟨10, R⟩) := by
  simp [postAuthLogin, rateLimitLogin, ht, LOGIN_MAX_ATTEMPTS]

lemma goodLoginAfterWindow (auth : AuthConfig) (r : RateRecord) (t : Nat)
    (hu : auth.username ≠ "") (hpw : auth.password ≠ "")
    (ht : r.resetAt ≤ t) :
    postAuthLogin auth (some r) t auth.username auth.password =
      (.authed auth.username "/setup", some ⟨0, t + LOGIN_WINDOW_MS⟩) := by
  have hu' : (auth.username == "") = false := beq_eq_false_iff_ne.mpr hu
  have hp' : (auth.password == "") = false := beq_eq_false_iff_ne.mpr hpw
  simp [postAuthLogin, rateLimitLogin, Nat.not_lt.mpr ht, hu', hp',
    bufferMatch_eq]
  exact ⟨by simp [bufferEqualPadded], by simp [bufferEqualPadded]⟩

/-- Claim C8: for a single client, after ten consecutive failed login attempts
inside the 15-minute window opened by the first one, the eleventh attempt
within that window receives 429 with a `Retry-After` of the remaining window
duration in seconds (`⌈(resetAt − now)/1000⌉`), and a later attempt made
after the window has elapsed with the correct username and password
succeeds, creating a session and redirecting to `/setup`. -/
theorem C8_rate_limit_scenario (auth : AuthConfig) (ub pb : String)
    (t1 t11 t12 : Nat) (ts : List Nat)
    (hu : auth.username ≠ "") (hpw : auth.password ≠ "")
    (hub : ub ≠ "") (hpb : pb ≠ "") (hwrong : pb ≠ auth.password)
    (hlen : ts.length = 9)
    (hts : ∀ t ∈ ts, t < t1 + LOGIN_WINDOW_MS)
    (h11 : t11 < t1 + LOGIN_WINDOW_MS)
    (h12 : t1 + LOGIN_WINDOW_MS ≤ t12) :
    (postAuthLogin auth
        (runFailedLogins auth ub pb (postAuthLogin auth none t1 ub pb).2 ts)
        t11 ub pb).1
      = .rateLimited ((t1 + LOGIN_WINDOW_MS - t11 + 999) / 1000)
    ∧ (postAuthLogin auth
        (postAuthLogin auth
          (runFailedLogins auth ub pb (postAuthLogin auth none t1 ub pb).2 ts)
          t11 ub pb).2
        t12 auth.username auth.password).1
      = .authed auth.username "/setup" := by
  have hfirst := firstFailedLogin auth ub pb t1 hub hpb hwrong hpw
  have hrun := runFailedLogins_record auth ub pb hub hpb hwrong hpw ts 1
      (t1 + LOGIN_WINDOW_MS) hts (by rw [hlen]; decide)
  have hstate : runFailedLogins auth ub pb (postAuthLogin auth none t1 ub pb).2 ts
      = some ⟨10, t1 + LOGIN_WINDOW_MS⟩ := by
    rw [hfirst]
    rw [hrun, hlen]
  have h11th := cappedLogin auth ub pb (t1 + LOGIN_WINDOW_MS) t11 h11
  have h12th := goodLoginAfterWindow auth ⟨10, t1 + LOGIN_WINDOW_MS⟩ t12 hu hpw h12
  constructor
  · rw [hstate, h11th]
  · rw [hstate, h11th]
    exact congrArg Prod.fst h12th

/-- Witness for `C8_rate_limit_scenario` on concrete timestamps and
credentials. -/
theorem C8_rate_limit_scenario_witness :
    (postAuthLogin ⟨"admin", "secretpw"⟩
        (runFailedLogins ⟨"admin", "secretpw"⟩ "user" "bad"
          (postAuthLogin ⟨"admin", "secretpw"⟩ none 0 "user" "bad").2
          [1, 2, 3, 4, 5, 6, 7, 8, 9])
        10 "user" "bad").1
      = .rateLimited 900
    ∧ (postAuthLogin ⟨"admin", "secretpw"⟩
        (postAuthLogin ⟨"admin", "secretpw"⟩
          (runFailedLogins ⟨"admin", "secretpw"⟩ "user" "bad"
            (postAuthLogin ⟨"admin", "secretpw"⟩ none 0 "user" "bad").2
            [1, 2, 3, 4, 5, 6, 7, 8, 9])
          10 "user" "bad").2
        900000 "admin" "secretpw").1
      = .authed "admin" "/setup" := by
  have h := C8_rate_limit_scenario ⟨"admin", "secretpw"⟩ "user" "bad" 0 10 900000
    [1, 2, 3, 4, 5, 6, 7, 8, 9] (by decide) (by decide) (by decide) (by decide)
    (by decide) (by decide) (by decide) (by decide) (by decide)
  refine ⟨?_, h.2⟩
  rw [h.1]
  decide

/-- Claim C9 (amended): with no authentication password configured, every
`POST /auth/login` attempt that passes the rate limiter and submits a
non-empty username and a non-empty password succeeds: an open-access session
user is created and the response redirects to `/setup`, for every such
username/password pair. -/
theorem C9_open_access_login (auth : AuthConfig) (st : Option RateRecord)
    (now : Nat) (u p : String)
    (hopen : auth.password = "") (hu : u ≠ "") (hp : p ≠ "")
    (hallowed : (rateLimitLogin st now).1 = .allowed) :
    postAuthLogin auth st now u p = (.openAccess u "/setup", (rateLimitLogin st now).2) := by
  have hu' : (u == "") = false := beq_eq_false_iff_ne.mpr hu
  have hp' : (p == "") = false := beq_eq_false_iff_ne.mpr hp
  have ho' : (auth.password == "") = true := by simp [hopen]
  rcases h : rateLimitLogin st now with ⟨o, s'⟩
  rw [h] at hallowed
  simp only at hallowed
  subst hallowed
  simp only [postAuthLogin, h, hu', hp', ho', Bool.or_self, Bool.false_eq_true,
    if_false, if_true]

/-- Witness for `C9_open_access_login` at a concrete request. -/
theorem C9_open_access_login_witness :
    postAuthLogin ⟨"admin", ""⟩ none 0 "alice" "pw" =
      (.openAccess "alice" "/setup", some ⟨0, 900000⟩) := by
  have h := C9_open_access_login ⟨"admin", ""⟩ none 0 "alice" "pw" rfl
    (by decide) (by decide) (by decide)
  rw [h]
  decide

/-- Counterexample to C9 as stated: with no password configured, a login
attempt with an empty username does NOT succeed — the handler's
missing-field check fires first and redirects back to the login page with an
error, creating no session. -/
theorem C9_counterexample :
    (postAuthLogin ⟨"admin", ""⟩ none 0 "" "somepassword").1 =
      .errorRedirect "/auth/login?error=Username and password are required"
    ∧ (postAuthLogin ⟨"admin", ""⟩ none 0 "" "somepassword").1 ≠
        .openAccess "" "/setup" := by
  exact ⟨by decide, by decide⟩

/-! ## Theorems for claim C4 -/

lemma flightInv_init (ι : Type) : FlightInv (flightInit ι) := by
  refine ⟨by simp [flightInit], by simp [flightInit], by simp [flightInit], ?_⟩
  rintro ⟨i, hi⟩
  exact absurd rfl hi

lemma flightInv_preserved {ι : Type} [DecidableEq ι]
    {a b : FlightState × (ι → CallerPc)}
    (hinv : FlightInv a) (hstep : FlightStep a b) : FlightInv b := by
  obtain ⟨hle, hiff, hproc, hmoved⟩ := hinv
  cases hstep with
  | entryJoin s cs i hp h1 h2 =>
    exact ⟨hle, hiff, hproc, fun _ => hiff.mp h2⟩
  | entrySpawn s cs i hp h1 h2 =>
    have hz : s.spawns = 0 := by
      rcases Nat.lt_or_ge s.spawns 1 with h | h
      · omega
      · exfalso
        have : s.spawns = 1 := le_antisymm hle h
        rw [← this] at hiff
        have := hiff.mpr rfl
        simp [h2] at this
    refine ⟨by simp [hz], by simp [hz], by simp, fun _ => by simp [hz]⟩
  | entryProbe s cs i hp h1 =>
    exact ⟨hle, hiff, hproc, fun _ => hiff.mp (hproc h1)⟩
  | probeAlive s cs i hp =>
    have h1 : s.spawns = 1 := hmoved ⟨i, by simp [hp]⟩
    exact ⟨hle, hiff, hproc, fun _ => h1⟩
  | probeDead s cs i hp =>
    have h1 : s.spawns = 1 := hmoved ⟨i, by simp [hp]⟩
    exact ⟨hle, hiff, hproc, fun _ => h1⟩
  | wakeJoin s cs i hp h2 =>
    exact ⟨hle, hiff, fun _ => h2, fun _ => hiff.mp h2⟩
  | wakeSpawn s cs i hp h2 =>
    exfalso
    have h1 : s.spawns = 1 := hmoved ⟨i, by simp [hp]⟩
    have := hiff.mpr h1
    simp [h2] at this

/-- Claim C4: in any interleaving of any number of concurrent
`ensureGatewayRunning()` callers during the window in which the gateway is
not yet ready, at most one `childProcess.spawn` ever occurs, and as soon as
any caller has taken a step, exactly one spawn has occurred — all other
callers share the single in-flight start instead of spawning duplicates. -/
theorem C4_single_flight {ι : Type} [DecidableEq ι]
    (st : FlightState × (ι → CallerPc))
    (h : Relation.ReflTransGen FlightStep (flightInit ι) st) :
    st.1.spawns ≤ 1 ∧ ((∃ i, st.2 i ≠ .entry) → st.1.spawns = 1) := by
  have hinv : FlightInv st := by
    induction h with
    | refl => exact flightInv_init ι
    | tail hsteps hstep ih => exact flightInv_preserved ih hstep
  exact ⟨hinv.1, hinv.2.2.2⟩

/-- Witness for `C4_single_flight`: a two-caller system in which the first
caller has executed its first block (installing the flight and spawning);
exactly one spawn has occurred. -/
theorem C4_single_flight_witness :
    ((⟨true, true, 1⟩ : FlightState),
      Function.update (fun _ : Fin 2 => CallerPc.entry) 0 CallerPc.awaitingFlight).1.spawns
      = 1 := by
  have hstep : FlightStep (flightInit (Fin 2))
      ((⟨true, true, 1⟩ : FlightState),
        Function.update (fun _ : Fin 2 => CallerPc.entry) 0 CallerPc.awaitingFlight) :=
    FlightStep.entrySpawn ⟨false, false, 0⟩ (fun _ => .entry) 0 rfl rfl rfl
  have h := C4_single_flight _ (Relation.ReflTransGen.single hstep)
  exact h.2 ⟨0, by simp [Function.update]⟩

/-! ## Theorems for claim C5 -/


/-- Claim C5 (amended): after an unexpected exit, automatic restarts are
scheduled with delays `2^k` seconds (1s, 2s, 4s) that strictly increase along
a failing crash loop, no more than `MAX_RESTART_ATTEMPTS = 3` are made, and
once the counter reaches the maximum a further crash schedules nothing.  The
attempt counter is reset to 0 only when a *scheduled automatic* restart
succeeds; a manual `restartGateway()` never touches the counter, so after
exhaustion automatic restarts do not resume even after a successful manual
restart. -/
theorem C5_restart_backoff :
    (∀ s : SupervisorState, s.gatewayRestartAttempts < 3 →
      (scheduleGatewayRestart s).gatewayRestartTimer =
          some (2 ^ s.gatewayRestartAttempts * 1000) ∧
        (scheduleGatewayRestart s).gatewayRestartAttempts =
          s.gatewayRestartAttempts + 1)
    ∧ (∀ s : SupervisorState, s.gatewayRestartAttempts + 1 < 3 → ∀ d,
        (scheduleGatewayRestart s).gatewayRestartTimer = some d →
        ∃ d', (restartTimerFire (scheduleGatewayRestart s) false).gatewayRestartTimer =
            some d' ∧ d < d')
    ∧ (∀ s : SupervisorState, 3 ≤ s.gatewayRestartAttempts →
        (gatewayExitEvent s).gatewayRestartTimer = none ∧
        (gatewayExitEvent s).gatewayRestartAttempts = s.gatewayRestartAttempts)
    ∧ (∀ s : SupervisorState,
        (restartTimerFire s true).gatewayRestartAttempts = 0)
    ∧ (∀ (s : SupervisorState) (ready : Bool),
        (restartGateway s ready).gatewayRestartAttempts = s.gatewayRestartAttempts ∧
        (restartGateway s ready).gatewayRestartTimer = s.gatewayRestartTimer) := by
  refine ⟨?_, ?_, ?_, ?_, ?_⟩
  · intro s hs
    simp [scheduleGatewayRestart, MAX_RESTART_ATTEMPTS, Nat.not_le.mpr hs]
  · intro s hs d hd
    have hs1 : s.gatewayRestartAttempts < 3 := Nat.lt_of_succ_lt hs
    simp only [scheduleGatewayRestart, MAX_RESTART_ATTEMPTS,
      if_neg (Nat.not_le.mpr hs1)] at hd ⊢
    simp only [Option.some.injEq] at hd
    refine ⟨2 ^ (s.gatewayRestartAttempts + 1) * 1000, ?_, ?_⟩
    · simp [restartTimerFire, scheduleGatewayRestart, MAX_RESTART_ATTEMPTS,
        Nat.not_le.mpr hs]
    · subst hd
      have : (2 : Nat) ^ s.gatewayRestartAttempts < 2 ^ (s.gatewayRestartAttempts + 1) :=
        Nat.pow_lt_pow_succ (by norm_num)
      exact Nat.mul_lt_mul_of_lt_of_le this (le_refl 1000) (by norm_num)
  · intro s hs
    simp [gatewayExitEvent, scheduleGatewayRestart, MAX_RESTART_ATTEMPTS, hs]
  · intro s
    simp [restartTimerFire]
  · intro s ready
    simp [restartGateway]

/-- Witness for `C5_restart_backoff` at the initial counter value. -/
theorem C5_restart_backoff_witness :
    (scheduleGatewayRestart ⟨true, 0, none⟩).gatewayRestartTimer = some 1000 ∧
    (restartGateway ⟨true, 3, none⟩ true).gatewayRestartAttempts = 3 := by
  have h1 := (C5_restart_backoff.1 ⟨true, 0, none⟩ (by decide)).1
  have h2 := (C5_restart_backoff.2.2.2.2 ⟨true, 3, none⟩ true).1
  exact ⟨h1, h2⟩

/-- Counterexample to C5 as stated: a crash loop exhausts the three automatic
attempts (delays 1s, 2s, 4s), then a *successful manual restart* leaves the
counter at 3 instead of resetting it, so the next crash schedules no
automatic restart at all. -/
theorem C5_counterexample :
    gatewayExitEvent ⟨true, 0, none⟩ = ⟨false, 1, some 1000⟩
    ∧ restartTimerFire ⟨false, 1, some 1000⟩ false = ⟨true, 2, some 2000⟩
    ∧ restartTimerFire ⟨true, 2, some 2000⟩ false = ⟨true, 3, some 4000⟩
    ∧ restartTimerFire ⟨true, 3, some 4000⟩ false = ⟨true, 3, none⟩
    ∧ restartGateway ⟨true, 3, none⟩ true = ⟨true, 3, none⟩
    ∧ (restartGateway ⟨true, 3, none⟩ true).gatewayRestartAttempts ≠ 0
    ∧ gatewayExitEvent (restartGateway ⟨true, 3, none⟩ true) = ⟨false, 3, none⟩ := by
  refine ⟨by decide, by decide, by decide, by decide, by decide, by decide, by decide⟩

/-! ## Theorems for claim C7 -/

/-- Claim C7 (amended): `classifyOnboardFailure` is a deterministic total function
of the output text, matching markers case-insensitively in priority order: it
returns `PROVIDER_AUTH_FAILED` when the lowercased output contains both
"invalid" and "api key" (as two separate markers, not the single phrase
"invalid api key"); otherwise `STORAGE_PERMISSION_ERROR` when it contains
"permission denied", "eacces" or "readonly"; otherwise `ONBOARD_TIMEOUT` when
it contains "timeout" or "timed out"; and `ONBOARD_FAILED` otherwise. -/
theorem C7_classifier_priority_table (output : String) :
    (∀ t, output = t → classifyOnboardFailure output = classifyOnboardFailure t)
    ∧ (hasInvalidKeyMarker output = true →
        (classifyOnboardFailure output).code = "PROVIDER_AUTH_FAILED")
    ∧ (hasInvalidKeyMarker output = false → hasStorageMarker output = true →
        (classifyOnboardFailure output).code = "STORAGE_PERMISSION_ERROR")
    ∧ (hasInvalidKeyMarker output = false → hasStorageMarker output = false →
        hasTimeoutMarker output = true →
        (classifyOnboardFailure output).code = "ONBOARD_TIMEOUT")
    ∧ (hasInvalidKeyMarker output = false → hasStorageMarker output = false →
        hasTimeoutMarker output = false →
        (classifyOnboardFailure output).code = "ONBOARD_FAILED") := by
  refine ⟨fun t ht => by rw [ht], ?_, ?_, ?_, ?_⟩
  · intro h
    simp only [hasInvalidKeyMarker] at h
    simp [classifyOnboardFailure, h]
  · intro h1 h2
    simp only [hasInvalidKeyMarker] at h1
    simp only [hasStorageMarker] at h2
    simp [classifyOnboardFailure, h1, h2]
  · intro h1 h2 h3
    simp only [hasInvalidKeyMarker] at h1
    simp only [hasStorageMarker] at h2
    simp only [hasTimeoutMarker] at h3
    simp [classifyOnboardFailure, h1, h2, h3]
  · intro h1 h2 h3
    simp only [hasInvalidKeyMarker] at h1
    simp only [hasStorageMarker] at h2
    simp only [hasTimeoutMarker] at h3
    simp [classifyOnboardFailure, h1, h2, h3]

/-- Witness for `C7_classifier_priority_table` at a concrete output. -/
theorem C7_classifier_priority_table_witness :
    (classifyOnboardFailure "EACCES: cannot write config").code =
      "STORAGE_PERMISSION_ERROR" :=
  (C7_classifier_priority_table "EACCES: cannot write config").2.2.1
    (by decide) (by decide)

/-- Counterexample to C7 as stated: the output "Operation timed out" contains
none of the claim's markers (in particular not "timeout"), so the claim
prescribes `ONBOARD_FAILED`, but the code's extra marker "timed out" makes
`classifyOnboardFailure` return `ONBOARD_TIMEOUT`. -/
theorem C7_counterexample :
    claimC7Classify "Operation timed out" = "ONBOARD_FAILED"
    ∧ (classifyOnboardFailure "Operation timed out").code = "ONBOARD_TIMEOUT"
    ∧ (classifyOnboardFailure "Operation timed out").code ≠
        claimC7Classify "Operation timed out" := by
  exact ⟨rfl, rfl, by decide⟩

/-! ## Theorems for claim C6 -/

/-- Claim C6 (amended): on an unconfigured system with no preflight blocker,
`POST /setup/api/run` reports success (HTTP 200, `ok: true`) if and only if
the onboarding CLI exits 0 AND the configuration artifact exists afterwards;
any other outcome yields the classified typed error object (HTTP 500 with
machine-readable code, message and action, the exit code, and a 3000-char
output preview).  The handler never deletes the artifact, so the resulting
onboarding state is exactly the artifact existence reported by the CLI run —
it returns to Unconfigured only when the artifact was not created. -/
theorem C6_run_success_iff (p : RunPayload) (env : OnboardEnv)
    (hb : runBlocked p = false) :
    ((∃ out, setupApiRun false p env = .okOut out) ↔
      (env.onboardExit = 0 ∧ env.configuredAfter = true))
    ∧ (¬(env.onboardExit = 0 ∧ env.configuredAfter = true) →
        setupApiRun false p env =
          .err 500 (classifyOnboardFailure env.onboardOutput).code
            (classifyOnboardFailure env.onboardOutput).message
            (classifyOnboardFailure env.onboardOutput).action
            (some env.onboardExit) (some ⟨env.onboardOutput.data.take 3000⟩)) := by
  constructor
  · constructor
    · rintro ⟨out, hout⟩
      by_cases hok : env.onboardExit == 0 && env.configuredAfter
      · have h0 : env.onboardExit = 0 := by
          have := (Bool.and_eq_true _ _).mp hok
          simpa using this.1
        have h1 : env.configuredAfter = true := by
          have := (Bool.and_eq_true _ _).mp hok
          exact this.2
        exact ⟨h0, h1⟩
      · exfalso
        simp only [setupApiRun, hb, if_false, Bool.false_eq_true, if_neg hok] at hout
        simp at hout
    · rintro ⟨h0, h1⟩
      refine ⟨env.onboardOutput ++ env.extra, ?_⟩
      have hok : (env.onboardExit == 0 && env.configuredAfter) = true := by
        simp [h0, h1]
      simp [setupApiRun, hb, hok]
  · intro hfail
    have hok : (env.onboardExit == 0 && env.configuredAfter) = false := by
      by_contra hc
      have := eq_true_of_ne_false hc
      have h := (Bool.and_eq_true _ _).mp this
      exact hfail ⟨by simpa using h.1, h.2⟩
    simp [setupApiRun, hb, hok]

/-- Witness for `C6_run_success_iff` at a concrete payload and environment. -/
theorem C6_run_success_iff_witness :
    (∃ out, setupApiRun false ⟨"apiKey", "sk-ant-k"⟩ ⟨0, "done", true, ""⟩ = .okOut out) :=
  ((C6_run_success_iff ⟨"apiKey", "sk-ant-k"⟩ ⟨0, "done", true, ""⟩ (by decide)).1).mpr
    ⟨rfl, rfl⟩

/-- Counterexample to C6 as stated: if the onboarding CLI exits nonzero but
did create the configuration artifact, the handler returns the typed error,
yet the system does NOT return to the Unconfigured state — the artifact is
left in place, so the onboarding record reports `configured = true`. -/
theorem C6_counterexample :
    setupApiRun false ⟨"apiKey", "sk-live"⟩ ⟨1, "boom", true, ""⟩
      = .err 500 "ONBOARD_FAILED"
          "OpenClaw onboarding did not complete successfully."
          "Review setup output log, fix highlighted issues, and retry deployment."
          (some 1) (some "boom")
    ∧ (⟨1, "boom", true, ""⟩ : OnboardEnv).configuredAfter = true := by
  exact ⟨by decide, rfl⟩

/-! ## Theorems for claim C10 -/

/-- Claim C10 (amended): the debug console's CLI-backed commands return their
combined output with `redactSecrets` applied; the onboarding run endpoint,
however, applies no redaction — its success response is the raw CLI output
plus the raw optional-step log, and its failure response carries the raw
first 3000 characters of the CLI output as `outputPreview`. -/
theorem C10_redaction_scope :
    (∀ (env : ConsoleEnv) (arg cmd : String),
      cmd ∈ ["openclaw.version", "openclaw.status", "openclaw.health",
             "openclaw.doctor", "openclaw.logs.tail"] →
      consoleRun cmd arg env =
        .outputResp (if env.cliExit == 0 then 200 else 500) (env.cliExit == 0)
          (redactSecrets env.cliOutput))
    ∧ (∀ (p : RunPayload) (env : OnboardEnv), runBlocked p = false →
        env.onboardExit = 0 → env.configuredAfter = true →
        setupApiRun false p env = .okOut (env.onboardOutput ++ env.extra))
    ∧ (∀ (p : RunPayload) (env : OnboardEnv), runBlocked p = false →
        ¬(env.onboardExit = 0 ∧ env.configuredAfter = true) →
        ∃ c m a, setupApiRun false p env =
          .err 500 c m a (some env.onboardExit)
            (some ⟨env.onboardOutput.data.take 3000⟩)) := by
  refine ⟨?_, ?_, ?_⟩
  · intro env arg cmd hmem
    simp only [List.mem_cons, List.not_mem_nil, or_false] at hmem
    rcases hmem with h | h | h | h | h <;> subst h <;>
      simp [consoleRun, ALLOWED_CONSOLE_COMMANDS]
  · intro p env hb h0 h1
    have hok : (env.onboardExit == 0 && env.configuredAfter) = true := by
      simp [h0, h1]
    simp [setupApiRun, hb, hok]
  · intro p env hb hfail
    have hok : (env.onboardExit == 0 && env.configuredAfter) = false := by
      by_contra hc
      have := eq_true_of_ne_false hc
      have h := (Bool.and_eq_true _ _).mp this
      exact hfail ⟨by simpa using h.1, h.2⟩
    refine ⟨(classifyOnboardFailure env.onboardOutput).code,
      (classifyOnboardFailure env.onboardOutput).message,
      (classifyOnboardFailure env.onboardOutput).action, ?_⟩
    simp [setupApiRun, hb, hok]

/-- Witness for `C10_redaction_scope` at concrete inputs. -/
theorem C10_redaction_scope_witness :
    consoleRun "openclaw.status" "" ⟨0, "key sk-abcdefghijklmnop", true⟩ =
      .outputResp 200 true "key [REDACTED]" := by
  have h := C10_redaction_scope.1 ⟨0, "key sk-abcdefghijklmnop", true⟩ ""
    "openclaw.status" (by decide)
  rw [h]
  decide

/-- Counterexample to C10 as stated: a secret-shaped substring in the
onboarding CLI output is returned verbatim in the run endpoint's failure
`outputPreview`, even though `redactSecrets` would have redacted it —
`POST /setup/api/run` never calls `redactSecrets` (server.js:2629-2641,
2732-2735). -/
theorem C10_counterexample :
    setupApiRun false ⟨"apiKey", "sk-live"⟩
        ⟨1, "token sk-abcdefghijklmnop done", false, ""⟩
      = .err 500 "ONBOARD_FAILED"
          "OpenClaw onboarding did not complete successfully."
          "Review setup output log, fix highlighted issues, and retry deployment."
          (some 1) (some "token sk-abcdefghijklmnop done")
    ∧ redactSecrets "token sk-abcdefghijklmnop done" = "token [REDACTED] done"
    ∧ redactSecrets "token sk-abcdefghijklmnop done" ≠
        "token sk-abcdefghijklmnop done" := by
  exact ⟨by decide, by decide, by decide⟩

end OpenClawWrapper
